import Mathlib

/-!
Verification development for a browser realtime-voice client with a thin
server-side relay.  The repository ships two client variants of the same
application file plus an Express relay:

* `src/unnamed/part_000` — Variant A (delegated synthesis): the WebRTC
  transceiver is send-only and spoken replies are produced by a queued
  external text-to-speech pipeline (`enqueueTts` / `playNextTts`).
* `src/unnamed/part_001` — Variant B (native synthesis): bidirectional
  audio; inbound tracks are attached to the audio sink, no TTS queue.
* `src/server.js` — the relay (`/session`, `/voices`, `/tts`, `/health`).

The embedding below translates the claim-relevant state and operations of
those files into pure Lean functions.  Mutable globals (`pc`, `dc`,
`micStream`, `isConnected`, `isRecording`, `aiBuffer`, `ttsQueue`,
`ttsPlaying`, the status / transcript DOM text) become fields of explicit
state records that every translated function threads through.  DOM-only
effects (CSS classes, scrolling, clocks) and `console.*` logging are not
observable by any claim and are left out; where a claim needs an
observation that JavaScript performs silently (which status texts were
ever shown, how many times `cleanup` ran, which HTTP requests were
issued, which media tracks were stopped), the state carries an
instrumentation field (`statusTrace`, `cleanupCount`, `sessionReqs`,
`stoppedTrackLog`, `ttsFetchLog`) that the translated code appends to at
exactly the places the source performs the corresponding effect.
-/

namespace StepAI

/-- Executable check that `p` is a prefix of `l`, matching `List.isPrefixOf`
from core but kept local so its equations are directly usable. -/
def listPrefixOf : List Char → List Char → Bool
  | [], _ => true
  | _ :: _, [] => false
  | a :: p, b :: l => a == b && listPrefixOf p l

/-- Executable substring test on character lists: does `pat` occur
contiguously inside `l`? -/
def listInfixOf : List Char → List Char → Bool
  | pat, [] => pat.isEmpty
  | pat, b :: l => listPrefixOf pat (b :: l) || listInfixOf pat l

/-- Does string `s` contain `pat` as a substring?  Models JavaScript
`String.prototype.includes` and is the formal reading of a status text
"reflecting" or "containing" some message. -/
def strContains (s pat : String) : Bool :=
  listInfixOf pat.data s.data

/-- Model of JavaScript `String.prototype.trim`: drop whitespace from both
ends.  (Defined over the character list so that it reduces inside the
kernel, which the library `String.trim` does not.) -/
def jsTrim (s : String) : String :=
  String.mk (((s.data.dropWhile Char.isWhitespace).reverse.dropWhile Char.isWhitespace).reverse)

/-- One `MediaStreamTrack` as far as the claims observe it: its `enabled`
flag (flipped by the state machine) and whether `stop()` was called. -/
structure Track where
  enabled : Bool
  stopped : Bool
deriving DecidableEq, Repr

/-- One queued TTS playback item, `{ text, voiceId }` in both
`enqueueTts` (part_000 line 460) and the `/tts` request body. -/
structure TtsItem where
  text : String
  voiceId : String
deriving DecidableEq, Repr

/-- Inbound realtime events after `JSON.parse`, one constructor per
`msg.type` string the dispatch in `handleEventMessage` distinguishes:
`response.created`, `input_audio_buffer.committed` (part_001 only),
`response.output_text.delta`, `response.audio_transcript.delta`,
`response.output_text.done`, `response.completed`,
`response.audio_transcript.done`, `response.done`, `session.updated`,
`error` / `response.error`, `output_audio_buffer.started` (part_001
only), any other `type` (`other`), and a non-JSON payload (`nonJson`,
the `JSON.parse` throw swallowed by the bare catch).  A missing `delta`
field (`msg.delta || ''`) is the empty string. -/
inductive RtMsg where
  | responseCreated
  | inputAudioCommitted
  | outputTextDelta (delta : String)
  | audioTranscriptDelta (delta : String)
  | outputTextDone
  | responseCompleted
  | audioTranscriptDone
  | responseDone
  | sessionUpdated
  | errorEvent
  | responseError
  | outputAudioStarted
  | other (kind : String)
  | nonJson
deriving DecidableEq, Repr

/-- Body of the `POST /session` request the client issues (part_000
lines 180-183 / part_001 lines 162-165). -/
structure SessionBody where
  modalities : List String
  instructions : Option String
  voice : Option String
deriving DecidableEq, Repr

/-- Outcome of the `fetch('/session')` round trip as the client observes
it: the fetch promise rejected (`netError`), `!r.ok` with the error text
read back (`httpError`), `r.ok` but `r.json()` threw (`parseError`), or
a parsed body whose `client_secret` is `clientSecret` (the empty string
models a missing / empty, i.e. falsy, field) and whose `model` field is
`model`. -/
inductive SessionFetchRes where
  | netError
  | httpError (status : Nat) (errText : String)
  | parseError
  | ok (clientSecret : String) (model : String)
deriving DecidableEq, Repr

/-- Outcome of the SDP-exchange `fetch` against the signaling endpoint:
rejected (`netError`), `!sdpResponse.ok` (`httpError`), or an answer SDP
body. -/
inductive SdpFetchRes where
  | netError
  | httpError (status : Nat) (errText : String)
  | ok (answer : String)
deriving DecidableEq, Repr

/-- The environment a run of `connect()` meets: the results of the two
`getUserMedia` attempts (`none` = the promise rejected, `some tracks` =
a stream holding those audio tracks) and of the two network round trips. -/
structure ConnectEnv where
  micEnhanced : Option (List Track)
  micBasic : Option (List Track)
  session : SessionFetchRes
  sdp : SdpFetchRes
deriving DecidableEq, Repr

/-- The session failure status renders `${t?.slice(0,120) || 'error'}`
(part_000 line 191 / part_001 line 173): the upstream error detail
truncated to 120 units, `'error'` when it is empty. -/
def sliceOrError (t : String) : String :=
  if t = "" then "error" else String.mk (t.data.take 120)

/-- Argument of `updateUI` (both variants, part_000 lines 105-139). -/
inductive UIState where
  | idle
  | recording
  | connected
  | connecting
  | error
deriving DecidableEq, Repr

end StepAI

namespace StepAI.VariantA

open StepAI

/-- The mutable state of Variant A (`src/unnamed/part_000`): the module
globals of lines 1-11, the claim-relevant DOM surfaces (status line,
transcript pane, voice selector, instructions box, the shared `els.audio`
element), and the instrumentation fields described in the file header.
`pcPresent` is the null-ness of `pc`; `dc` holds the data channel's
`readyState` when `dc` is non-null; `micStream` holds the stream's audio
tracks when non-null. -/
structure AppState where
  pcPresent : Bool
  micStream : Option (List Track)
  dc : Option String
  isConnected : Bool
  isRecording : Bool
  aiBuffer : String
  promptApplied : Bool
  ttsQueue : List TtsItem
  ttsPlaying : Bool
  audioPaused : Bool
  audioCurrentTime : Nat
  status : String
  transcript : String
  voiceIdSel : String
  instructionsSel : String
  remoteDescSet : Bool
  statusTrace : List String
  sessionReqs : List SessionBody
  stoppedTrackLog : List Track
  ttsFetchLog : List TtsItem
  cleanupCount : Nat
deriving DecidableEq, Repr

/-- Lines 79-81: `setStatus` writes the status DOM text.  The trace field
additionally records every text ever shown. -/
def setStatus (s : String) (st : AppState) : AppState :=
  { st with status := s, statusTrace := st.statusTrace ++ [s] }

/-- Lines 83-85: `setTranscript` replaces the transcript text. -/
def setTranscript (text : String) (st : AppState) : AppState :=
  { st with transcript := text }

/-- Line 90: the Japanese placeholder the transcript pane may hold. -/
def placeholderJP : String := "マイクを許可して、話しかけてください。"

/-- Line 91: the English placeholder, also the text `cleanup` restores. -/
def placeholderEN : String := "Tap the microphone to start speaking..."

/-- Lines 87-96: `appendTranscript` appends `text`, first clearing the
pane when it still holds either placeholder; empty text is a no-op. -/
def appendTranscript (text : String) (st : AppState) : AppState :=
  if text = "" then st
  else
    let base :=
      if strContains st.transcript placeholderJP || strContains st.transcript placeholderEN then ""
      else st.transcript
    { st with transcript := base ++ text }

/-- Lines 459-462: `enqueueTts` pushes `{ text, voiceId }` and, when no
playback is in flight, calls `playNextTts()`.  Being `async`, that call
runs synchronously up to its first `await` (the `/tts` fetch): it passes
the `ttsPlaying` guard, shifts the next item, sets `ttsPlaying` and
issues the fetch (recorded in `ttsFetchLog`).  The asynchronous remainder
of the worker is the step machine in the `TtsWorker` namespace. -/
def enqueueTts (text voiceId : String) (st : AppState) : AppState :=
  let st := { st with ttsQueue := st.ttsQueue ++ [{ text := text, voiceId := voiceId }] }
  if st.ttsPlaying then st
  else
    match st.ttsQueue with
    | [] => st
    | item :: rest =>
      { st with ttsQueue := rest, ttsPlaying := true, ttsFetchLog := st.ttsFetchLog ++ [item] }

/-- Lines 98-103: `flushAiSubtitle` emits the trimmed buffer as a
subtitle line, hands it to the TTS queue with the selected voice, and
resets the buffer. -/
def flushAiSubtitle (pfx : String) (st : AppState) : AppState :=
  let text := jsTrim st.aiBuffer
  let st := if text = "" then st else appendTranscript (pfx ++ text ++ "\n") st
  let st := if text = "" then st else enqueueTts text (jsTrim st.voiceIdSel) st
  { st with aiBuffer := "" }

/-- Lines 106-108: the `setMicEnabled` closure inside `updateUI` (also
the inline track-disable at line 174): set `enabled` on every audio
track of `micStream` when it is non-null. -/
def setMicEnabled (flag : Bool) (st : AppState) : AppState :=
  { st with micStream := st.micStream.map (List.map fun t => { t with enabled := flag }) }

/-- Lines 110-116: the `idle` case of `updateUI` (shared with the `error`
case, which replays it). -/
def updateUIIdle (st : AppState) : AppState :=
  setMicEnabled false { st with isRecording := false }

/-- Lines 105-139: `updateUI`.  The `error` case shows `Connection
failed` and then recurses into the `idle` case. -/
def updateUI : UIState → AppState → AppState
  | .idle, st => updateUIIdle st
  | .recording, st =>
      setMicEnabled true { st with isRecording := true, isConnected := true }
  | .connected, st =>
      setMicEnabled false (setStatus "Connected - Tap mic to speak" { st with isConnected := true })
  | .connecting, st => setMicEnabled false (setStatus "Connecting..." st)
  | .error, st => updateUIIdle (setStatus "Connection failed" st)

/-- Lines 357-360: `stopTracks` calls `stop()` on every track of the
stream when it is non-null.  The stopped tracks are also recorded in
`stoppedTrackLog` so that claims can observe them after the stream
reference is nulled. -/
def stopTracks (st : AppState) : AppState :=
  match st.micStream with
  | none => st
  | some ts =>
    let stopped := ts.map fun t => { t with stopped := true }
    { st with micStream := some stopped, stoppedTrackLog := st.stoppedTrackLog ++ stopped }

/-- Lines 362-373: `cleanup`, the teardown routine.  Every close is
wrapped in `try {} catch {}` in the source and each handle is
null-checked, so the function is total.  Note that it does not touch
`ttsQueue`, `ttsPlaying` or the audio element: `stopTts` (lines 501-506)
is never called from here or anywhere else. -/
def cleanup (st : AppState) : AppState :=
  let st := { st with cleanupCount := st.cleanupCount + 1 }
  let st := { st with dc := none }
  let st := { st with pcPresent := false }
  let st := stopTracks st
  let st := { st with micStream := none }
  let st := { st with isConnected := false }
  let st := updateUI .idle st
  let st := setStatus "Ready to connect" st
  setTranscript "Tap the microphone to start speaking..." st

/-- Lines 501-506: `stopTts`, declared under the comment "Stop TTS on
disconnect/end": pause and rewind the sink, drop the queue, clear the
in-flight flag.  No code path in part_000 ever invokes it. -/
def stopTts (st : AppState) : AppState :=
  { st with audioPaused := true, audioCurrentTime := 0, ttsQueue := [], ttsPlaying := false }

/-- Lines 294-300: the `pc.onconnectionstatechange` handler of Variant A.
It shows the raw connection state and tears down on `failed`, `closed`
and also on `disconnected`. -/
def onConnectionStateChange (connState : String) (st : AppState) : AppState :=
  let st := setStatus connState st
  if connState = "failed" || connState = "closed" || connState = "disconnected" then cleanup st
  else st

/-- Lines 233-261: the data-channel `handleEventMessage` dispatch of
Variant A.  Unknown kinds and non-JSON payloads change nothing
(`console.log` / swallowed parse error); in this variant
`input_audio_buffer.committed` and `output_audio_buffer.started` fall
into the unknown-kind branch. -/
def handleEventMessage (msg : RtMsg) (st : AppState) : AppState :=
  match msg with
  | .responseCreated => { st with aiBuffer := "" }
  | .outputTextDelta delta => { st with aiBuffer := st.aiBuffer ++ delta }
  | .audioTranscriptDelta delta => { st with aiBuffer := st.aiBuffer ++ delta }
  | .outputTextDone => flushAiSubtitle "AI: " st
  | .responseCompleted => flushAiSubtitle "AI: " st
  | .audioTranscriptDone => flushAiSubtitle "AI: " st
  | .responseDone => flushAiSubtitle "AI: " st
  | .sessionUpdated => setStatus "Prompt applied" { st with promptApplied := true }
  | .errorEvent => st
  | .responseError => st
  | .inputAudioCommitted => st
  | .outputAudioStarted => st
  | .other _ => st
  | .nonJson => st

/-- Channel messages processed strictly in arrival order. -/
def runEvents (msgs : List RtMsg) (st : AppState) : AppState :=
  msgs.foldl (fun s m => handleEventMessage m s) st

/-- Lines 176-203 continued at 205-355: the remainder of `connect()`
after a session credential parsed with a truthy `client_secret`.  The
`RTCPeerConnection` is created, the mic track attached send-only, the
events data channel created (readyState `connecting` until its `onopen`
fires), the offer produced, ICE gathering awaited, and the offer
exchanged over HTTP; `!ok` and network failure both show a status and
tear down, otherwise the remote answer is applied. -/
def connectWithSession (env : ConnectEnv) (_model : String) (st : AppState) : AppState :=
  let st := { st with pcPresent := true }
  let st := { st with dc := some "connecting" }
  let st := setStatus "creating offer…" st
  let st := setStatus "exchanging SDP…" st
  match env.sdp with
  | .httpError _status _errText => cleanup (setStatus "SDP exchange failed" st)
  | .netError => cleanup (setStatus "SDP exchange network error" st)
  | .ok _answer => { st with remoteDescSet := true }

/-- Lines 173-203: the middle of `connect()` once a microphone stream is
held: disable all tracks, show `fetching session…`, issue `POST /session`
(recorded in `sessionReqs`, with `instructions` only when the box is
non-blank), and dispatch on the outcome.  A non-ok response shows
`/session <status>: <detail>` and returns `cleanup()`; a rejected fetch
or a `r.json()` throw shows `failed to reach /session` and returns
`cleanup()`; a falsy `client_secret` shows `invalid session response`
and returns `cleanup()`. -/
def connectWithMic (env : ConnectEnv) (st : AppState) : AppState :=
  let st := setMicEnabled false st
  let st := setStatus "fetching session…" st
  let body : SessionBody :=
    { modalities := ["text", "audio"]
      instructions := if jsTrim st.instructionsSel = "" then none else some (jsTrim st.instructionsSel)
      voice := none }
  let st := { st with sessionReqs := st.sessionReqs ++ [body] }
  match env.session with
  | .netError => cleanup (setStatus "failed to reach /session" st)
  | .parseError => cleanup (setStatus "failed to reach /session" st)
  | .httpError status errText =>
      cleanup (setStatus ("/session " ++ toString status ++ ": " ++ sliceOrError errText) st)
  | .ok clientSecret model =>
      if clientSecret = "" then cleanup (setStatus "invalid session response" st)
      else connectWithSession env model st

/-- Lines 141-355: `connect()`.  The guard returns immediately when a
peer connection already exists; then the UI moves to `connecting` and the
two `getUserMedia` attempts run — enhanced constraints first, plain
`audio: true` second, and on a second failure the function shows
`Microphone permission denied`, runs `updateUI('error')` and returns
before any session request. -/
def connect (env : ConnectEnv) (st : AppState) : AppState :=
  if st.pcPresent then st
  else
    let st := updateUI .connecting st
    match env.micEnhanced with
    | some tracks => connectWithMic env { st with micStream := some tracks }
    | none =>
      match env.micBasic with
      | some tracks => connectWithMic env { st with micStream := some tracks }
      | none => updateUI .error (setStatus "Microphone permission denied" st)

/-- The conversation state is `Idle` exactly when the consolidated flags
`isConnected` and `isRecording` are both clear (spec section 9's reading
of the globals of lines 4-5). -/
def isIdle (st : AppState) : Bool :=
  !st.isConnected && !st.isRecording

/-- The module state right after load: all handles null, all flags
clear, empty buffer and queue (lines 1-11). -/
def initState : AppState :=
  { pcPresent := false
    micStream := none
    dc := none
    isConnected := false
    isRecording := false
    aiBuffer := ""
    promptApplied := false
    ttsQueue := []
    ttsPlaying := false
    audioPaused := true
    audioCurrentTime := 0
    status := ""
    transcript := placeholderEN
    voiceIdSel := ""
    instructionsSel := ""
    remoteDescSet := false
    statusTrace := []
    sessionReqs := []
    stoppedTrackLog := []
    ttsFetchLog := []
    cleanupCount := 0 }

/-- Erase the instrumentation fields, keeping exactly the state the
JavaScript program itself holds; two states equal under this projection
are indistinguishable to the program. -/
def scrubGhost (st : AppState) : AppState :=
  { st with statusTrace := [], sessionReqs := [], stoppedTrackLog := [],
            ttsFetchLog := [], cleanupCount := 0 }

end StepAI.VariantA

namespace StepAI.VariantB

open StepAI

/-- Control messages Variant B serializes onto the data channel (the
`dc.send(JSON.stringify(...))` calls): a `session.update` and the
`response.create` turn request. -/
inductive OutMsg where
  | sessionUpdate (instructions : Option String) (voice : Option String)
  | responseCreate (conversation : String) (modalities : List String)
deriving DecidableEq, Repr

/-- The mutable state of Variant B (`src/unnamed/part_001`): the module
globals of lines 1-8 plus the claim-relevant DOM surfaces.  Variant B
has no TTS queue ("No external TTS; audio is received from OpenAI over
WebRTC"); the audio sink keeps a `muted` flag touched by
`ensureAudioPlayback` and `playNudges` counts its `play()` nudges. -/
structure BState where
  pcPresent : Bool
  micStream : Option (List Track)
  dc : Option String
  isConnected : Bool
  isRecording : Bool
  aiBuffer : String
  promptApplied : Bool
  audioMuted : Bool
  playNudges : Nat
  status : String
  transcript : String
  voiceSel : String
  instructionsSel : String
  remoteDescSet : Bool
  statusTrace : List String
  sessionReqs : List SessionBody
  stoppedTrackLog : List Track
  cleanupCount : Nat
deriving DecidableEq, Repr

/-- Lines 62-64: `setStatus` (with the same trace instrumentation as in
Variant A). -/
def setStatus (s : String) (st : BState) : BState :=
  { st with status := s, statusTrace := st.statusTrace ++ [s] }

/-- Lines 66-68: `setTranscript`. -/
def setTranscript (text : String) (st : BState) : BState :=
  { st with transcript := text }

/-- Lines 45-58: `ensureAudioPlayback` unmutes the sink, re-applies the
volume and calls `play()` swallowing any rejection. -/
def ensureAudioPlayback (st : BState) : BState :=
  { st with audioMuted := false, playNudges := st.playNudges + 1 }

/-- Lines 70-79: `appendTranscript`, identical to Variant A's. -/
def appendTranscript (text : String) (st : BState) : BState :=
  if text = "" then st
  else
    let base :=
      if strContains st.transcript VariantA.placeholderJP
          || strContains st.transcript VariantA.placeholderEN then ""
      else st.transcript
    { st with transcript := base ++ text }

/-- Lines 81-85: `flushAiSubtitle` — as in Variant A but with no TTS
hand-off. -/
def flushAiSubtitle (pfx : String) (st : BState) : BState :=
  let text := jsTrim st.aiBuffer
  let st := if text = "" then st else appendTranscript (pfx ++ text ++ "\n") st
  { st with aiBuffer := "" }

/-- Lines 88-90: the `setMicEnabled` closure of `updateUI`. -/
def setMicEnabled (flag : Bool) (st : BState) : BState :=
  { st with micStream := st.micStream.map (List.map fun t => { t with enabled := flag }) }

/-- Lines 92-98: the `idle` case of `updateUI`. -/
def updateUIIdle (st : BState) : BState :=
  setMicEnabled false { st with isRecording := false }

/-- Lines 87-121: `updateUI` of Variant B (textually the same switch as
Variant A's). -/
def updateUI : UIState → BState → BState
  | .idle, st => updateUIIdle st
  | .recording, st =>
      setMicEnabled true { st with isRecording := true, isConnected := true }
  | .connected, st =>
      setMicEnabled false (setStatus "Connected - Tap mic to speak" { st with isConnected := true })
  | .connecting, st => setMicEnabled false (setStatus "Connecting..." st)
  | .error, st => updateUIIdle (setStatus "Connection failed" st)

/-- Lines 371-374: `stopTracks`, with the same stopped-track log as
Variant A's. -/
def stopTracks (st : BState) : BState :=
  match st.micStream with
  | none => st
  | some ts =>
    let stopped := ts.map fun t => { t with stopped := true }
    { st with micStream := some stopped, stoppedTrackLog := st.stoppedTrackLog ++ stopped }

/-- Lines 376-387: `cleanup` of Variant B, line for line the same
teardown as Variant A's. -/
def cleanup (st : BState) : BState :=
  let st := { st with cleanupCount := st.cleanupCount + 1 }
  let st := { st with dc := none }
  let st := { st with pcPresent := false }
  let st := stopTracks st
  let st := { st with micStream := none }
  let st := { st with isConnected := false }
  let st := updateUI .idle st
  let st := setStatus "Ready to connect" st
  setTranscript "Tap the microphone to start speaking..." st

/-- Lines 304-313: the `pc.onconnectionstatechange` handler of Variant B:
`failed` and `closed` tear down; `disconnected` only replaces the status
text ("'disconnected' is temporary, don't cleanup immediately"). -/
def onConnectionStateChange (connState : String) (st : BState) : BState :=
  let st := setStatus connState st
  if connState = "failed" || connState = "closed" then cleanup st
  else if connState = "disconnected" then
    setStatus "Connection temporarily lost, attempting to reconnect..." st
  else st

/-- Lines 231-269: the data-channel `handleEventMessage` dispatch of
Variant B, returning the updated state together with the control
messages sent on the channel while processing the event.  On
`input_audio_buffer.committed`, when the global `dc` is non-null with
`readyState === 'open'`, exactly one
`response.create { conversation: 'auto', modalities: ['audio','text'] }`
is sent (a `send` throw would be caught and logged); with the channel
absent or not open nothing is sent. -/
def handleEventMessage (msg : RtMsg) (st : BState) : BState × List OutMsg :=
  match msg with
  | .responseCreated => ({ st with aiBuffer := "" }, [])
  | .inputAudioCommitted =>
      if st.dc = some "open" then
        (st, [.responseCreate "auto" ["audio", "text"]])
      else (st, [])
  | .outputTextDelta delta => ({ st with aiBuffer := st.aiBuffer ++ delta }, [])
  | .audioTranscriptDelta delta => ({ st with aiBuffer := st.aiBuffer ++ delta }, [])
  | .outputTextDone => (flushAiSubtitle "AI: " st, [])
  | .responseCompleted => (flushAiSubtitle "AI: " st, [])
  | .audioTranscriptDone => (flushAiSubtitle "AI: " st, [])
  | .responseDone => (flushAiSubtitle "AI: " st, [])
  | .sessionUpdated => (setStatus "Prompt applied" { st with promptApplied := true }, [])
  | .errorEvent => (st, [])
  | .responseError => (st, [])
  | .outputAudioStarted => (ensureAudioPlayback st, [])
  | .other _ => (st, [])
  | .nonJson => (st, [])

/-- Lines 337-368: the SDP-exchange phase of Variant B's `connect()`.
Unlike Variant A, failures throw: the `!sdpResponse.ok` branch shows
`SDP exchange failed`, runs `cleanup()` and throws — and that throw is
caught by the enclosing `catch`, which shows `SDP exchange network
error`, runs `cleanup()` a second time and rethrows.  The returned flag
records whether an exception propagates to the caller. -/
def connectSdpPhase (env : ConnectEnv) (st : BState) : BState × Bool :=
  match env.sdp with
  | .httpError _status _errText =>
      let st := setStatus "SDP exchange failed" st
      let st := cleanup st
      let st := setStatus "SDP exchange network error" st
      let st := cleanup st
      (st, true)
  | .netError =>
      let st := setStatus "SDP exchange network error" st
      let st := cleanup st
      (st, true)
  | .ok _answer => ({ st with remoteDescSet := true }, false)

/-- Lines 193-335 condensed: after a usable credential, Variant B builds
the peer connection (send-recv plus an explicit recv-only transceiver),
attaches inbound tracks to the sink, creates the events channel, waits
for ICE and runs the SDP exchange phase. -/
def connectWithSession (env : ConnectEnv) (_model : String) (st : BState) : BState × Bool :=
  let st := { st with pcPresent := true }
  let st := { st with dc := some "connecting" }
  let st := setStatus "creating offer…" st
  let st := setStatus "exchanging SDP…" st
  connectSdpPhase env st

/-- Lines 155-191: the session-request phase of Variant B's `connect()`.
The request body also carries `voice: (els.voice?.value || 'alloy')
.trim()`.  A non-ok response shows `/session <status>: <detail>`, runs
`cleanup()` and throws from inside the `try` — so the enclosing `catch`
then shows `failed to reach /session`, runs `cleanup()` again and
rethrows.  A rejected fetch or `r.json()` throw takes the `catch` path
once.  A falsy `client_secret` (checked after the `try`/`catch`) shows
`invalid session response`, runs `cleanup()` and throws directly to the
caller. -/
def connectWithMic (env : ConnectEnv) (st : BState) : BState × Bool :=
  let st := setMicEnabled false st
  let st := setStatus "fetching session…" st
  let voiceVal := jsTrim (if st.voiceSel = "" then "alloy" else st.voiceSel)
  let body : SessionBody :=
    { modalities := ["text", "audio"]
      instructions := if jsTrim st.instructionsSel = "" then none else some (jsTrim st.instructionsSel)
      voice := some voiceVal }
  let st := { st with sessionReqs := st.sessionReqs ++ [body] }
  match env.session with
  | .netError =>
      let st := cleanup (setStatus "failed to reach /session" st)
      (st, true)
  | .parseError =>
      let st := cleanup (setStatus "failed to reach /session" st)
      (st, true)
  | .httpError status errText =>
      let st := setStatus ("/session " ++ toString status ++ ": " ++ sliceOrError errText) st
      let st := cleanup st
      let st := cleanup (setStatus "failed to reach /session" st)
      (st, true)
  | .ok clientSecret model =>
      if clientSecret = "" then (cleanup (setStatus "invalid session response" st), true)
      else connectWithSession env model st

/-- Lines 123-369: `connect()` of Variant B; the mic-acquisition ladder
is the same as Variant A's and a double mic failure returns normally
(no throw). -/
def connect (env : ConnectEnv) (st : BState) : BState × Bool :=
  if st.pcPresent then (st, false)
  else
    let st := updateUI .connecting st
    match env.micEnhanced with
    | some tracks => connectWithMic env { st with micStream := some tracks }
    | none =>
      match env.micBasic with
      | some tracks => connectWithMic env { st with micStream := some tracks }
      | none => (updateUI .error (setStatus "Microphone permission denied" st), false)

/-- Lines 393-432: the mic-button click path that starts a connection:
`connect()` runs and, when its promise rejects, the handler runs
`updateUI('error')` followed by one more `cleanup()` (lines 415-419). -/
def micButtonConnect (env : ConnectEnv) (st : BState) : BState :=
  match connect env st with
  | (st, false) => st
  | (st, true) => cleanup (updateUI .error st)

/-- Conversation state `Idle` read off the consolidated flags. -/
def isIdle (st : BState) : Bool :=
  !st.isConnected && !st.isRecording

/-- Variant B module state right after load (lines 1-8). -/
def initState : BState :=
  { pcPresent := false
    micStream := none
    dc := none
    isConnected := false
    isRecording := false
    aiBuffer := ""
    promptApplied := false
    audioMuted := true
    playNudges := 0
    status := ""
    transcript := VariantA.placeholderEN
    voiceSel := ""
    instructionsSel := ""
    remoteDescSet := false
    statusTrace := []
    sessionReqs := []
    stoppedTrackLog := []
    cleanupCount := 0 }

/-- Erase the instrumentation fields of a Variant B state. -/
def scrubGhost (st : BState) : BState :=
  { st with statusTrace := [], sessionReqs := [], stoppedTrackLog := [], cleanupCount := 0 }

end StepAI.VariantB

namespace StepAI.TtsWorker

open StepAI

/-- Observable events of the Variant A playback pipeline (part_000 lines
459-498): the worker issued the `/tts` fetch for an item, started playing
its audio on the sink, the sink finished it, or the fetch failed
(`!r.ok`, logged with `console.warn`, or a rejected fetch caught and
logged). -/
inductive Ev where
  | fetchRequested (item : TtsItem)
  | playStarted (item : TtsItem)
  | playEnded (item : TtsItem)
  | fetchFailed (item : TtsItem)
deriving DecidableEq, Repr

/-- Where the single `playNextTts` worker is suspended: not running at
all, awaiting the `/tts` fetch for `item`, or awaiting the sink's
`ended` event for `item`. -/
inductive Phase where
  | idle
  | fetching (item : TtsItem)
  | playing (item : TtsItem)
deriving DecidableEq, Repr

/-- State of the pipeline: the pending queue (`ttsQueue`), the guard flag
(`ttsPlaying`), the worker's suspension point, the event trace, and the
submission log (every item ever passed to `enqueueTts`, in order). -/
structure WState where
  queue : List TtsItem
  ttsPlaying : Bool
  phase : Phase
  trace : List Ev
  enqLog : List TtsItem
deriving DecidableEq, Repr

/-- The occurrences that drive the pipeline between suspension points:
an `enqueueTts(text, voiceId)` call from a subtitle flush, the awaited
`/tts` fetch settling (`ok` = a 2xx response whose bytes were read;
`false` = `!r.ok` or a rejection), and the sink firing `ended`. -/
inductive Act where
  | enqueue (item : TtsItem)
  | fetchResolved (ok : Bool)
  | audioEnded
deriving DecidableEq, Repr

/-- One synchronous invocation of `playNextTts()` up to its first
`await` (lines 464-469): return if `ttsPlaying` is set, return if the
shifted item is undefined, otherwise set `ttsPlaying`, record the item
and issue its fetch. -/
def kick (st : WState) : WState :=
  if st.ttsPlaying then st
  else
    match st.queue with
    | [] => st
    | item :: rest =>
      { st with queue := rest, ttsPlaying := true, phase := .fetching item,
                trace := st.trace ++ [.fetchRequested item] }

/-- The `finally` block (lines 494-497): clear `ttsPlaying` and, when the
queue is non-empty, synchronously re-enter `playNextTts()` (whose own
guards `kick` replays; on an empty queue `kick` is the identity, which
matches the `if (ttsQueue.length)` test). -/
def finallyAdvance (st : WState) : WState :=
  kick { st with ttsPlaying := false, phase := .idle }

/-- The event-loop step.  `enqueue` is lines 459-462: push, then start
the worker unless one is in flight.  `fetchResolved` resumes the worker
awaiting its fetch: on success the audio is handed to the sink and
playback starts (lines 480-485), on failure the item is skipped (line
478) and the `finally` advances; a settlement with no worker awaiting a
fetch has no continuation and changes nothing.  `audioEnded` resumes the
worker awaiting the sink (lines 486-489) and the `finally` advances. -/
def step (st : WState) : Act → WState
  | .enqueue item =>
      kick { st with queue := st.queue ++ [item], enqLog := st.enqLog ++ [item] }
  | .fetchResolved ok =>
      match st.phase with
      | .fetching item =>
          if ok then
            { st with phase := .playing item, trace := st.trace ++ [.playStarted item] }
          else
            finallyAdvance { st with trace := st.trace ++ [.fetchFailed item] }
      | _ => st
  | .audioEnded =>
      match st.phase with
      | .playing item => finallyAdvance { st with trace := st.trace ++ [.playEnded item] }
      | _ => st

/-- Pipeline state at load: empty queue, flag clear, worker idle. -/
def init : WState :=
  { queue := [], ttsPlaying := false, phase := .idle, trace := [], enqLog := [] }

/-- Run a whole interleaving of enqueues and settlements from load. -/
def run (as : List Act) : WState :=
  as.foldl step init

/-- Items whose `/tts` fetch was issued, in trace order. -/
def startedItems (tr : List Ev) : List TtsItem :=
  tr.filterMap fun e =>
    match e with
    | .fetchRequested i => some i
    | _ => none

/-- Items whose playback completed, in trace order. -/
def endedItems (tr : List Ev) : List TtsItem :=
  tr.filterMap fun e =>
    match e with
    | .playEnded i => some i
    | _ => none

/-- Items the worker is finished with — played to completion or skipped
after a failed fetch — in trace order. -/
def doneItems (tr : List Ev) : List TtsItem :=
  tr.filterMap fun e =>
    match e with
    | .playEnded i => some i
    | .fetchFailed i => some i
    | _ => none

/-- Contribution of one event to the number of concurrently playing
items. -/
def delta : Ev → Int
  | .playStarted _ => 1
  | .playEnded _ => -1
  | _ => 0

/-- Number of concurrently playing items after a trace, starting from
`n`. -/
def activeAfter : Int → List Ev → Int
  | n, [] => n
  | n, e :: tr => activeAfter (n + delta e) tr

/-- Starting from `n` playing items, does the count stay within `[0, 1]`
after every event of the trace?  `boundedFrom 0 tr = true` is the formal
"at most one item is ever playing at any time". -/
def boundedFrom : Int → List Ev → Bool
  | _, [] => true
  | n, e :: tr =>
      decide (0 ≤ n + delta e) && decide (n + delta e ≤ 1) && boundedFrom (n + delta e) tr

/-- The item the worker currently owns, if any. -/
def phaseItem : Phase → Option TtsItem
  | .idle => none
  | .fetching i => some i
  | .playing i => some i

/-- The inductive invariant of the pipeline: the submission log is the
fetched items followed by the still-queued ones; the fetched items are
the finished ones followed by the worker's current item; the guard flag
is set exactly while the worker owns an item; and the trace never shows
two overlapping playbacks, with one playback open exactly in the
`playing` phase. -/
def Inv (st : WState) : Prop :=
  st.enqLog = startedItems st.trace ++ st.queue
  ∧ startedItems st.trace = doneItems st.trace ++ (phaseItem st.phase).toList
  ∧ st.ttsPlaying = (phaseItem st.phase).isSome
  ∧ boundedFrom 0 st.trace = true
  ∧ activeAfter 0 st.trace = (match st.phase with | .playing _ => 1 | _ => 0)

end StepAI.TtsWorker

namespace StepAI.Server

open StepAI

/-- Server configuration read from the environment (`server.js` lines
23-24); the empty string models an unset (falsy) variable. -/
structure TtsConfig where
  elevenApiKey : String
  elevenVoiceId : String
deriving DecidableEq, Repr

/-- Body of a `POST /tts` request: `{ text, voiceId? }`, each field
`none` when absent. -/
structure TtsReqBody where
  text : Option String
  voiceId : Option String
deriving DecidableEq, Repr

/-- Upstream ElevenLabs requests the handler can issue: the voice-list
fetch inside `getElevenVoices` and the synthesis-stream POST. -/
inductive UpstreamCall where
  | voicesList
  | synth (voiceId : String) (text : String)
deriving DecidableEq, Repr

/-- Outcome of `getElevenVoices()` when it does reach upstream: the call
threw (non-ok status or rejection) or returned a body whose first voice
id is `firstId` (the empty string models `j?.voices?.[0]?.voice_id`
being absent). -/
inductive VoicesOutcome where
  | fail
  | ok (firstId : String)
deriving DecidableEq, Repr

/-- Outcome of the synthesis-stream fetch: rejected, or a response with
this status and body presence. -/
inductive SynthOutcome where
  | netError
  | resp (status : Nat) (hasBody : Bool)
deriving DecidableEq, Repr

/-- Environment of one `/tts` request: whether the in-memory voices
cache is still fresh (lines 90-104) and what it holds, plus the outcomes
of the two possible upstream calls. -/
structure TtsEnv where
  cacheFresh : Bool
  cachedFirstId : String
  voices : VoicesOutcome
  synth : SynthOutcome
deriving DecidableEq, Repr

/-- What a `/tts` response looks like to the claims: HTTP status, whether
the body is a JSON error object (as opposed to streamed `audio/mpeg`
bytes), and every upstream call issued while handling the request. -/
structure TtsResult where
  status : Nat
  jsonError : Bool
  calls : List UpstreamCall
deriving DecidableEq, Repr

/-- Lines 91-104: `getElevenVoices()` under an already-checked API key:
serve the cache when fresh, otherwise call upstream; a failure there
throws (`none`). -/
def getElevenVoices (env : TtsEnv) : Option String × List UpstreamCall :=
  if env.cacheFresh then (some env.cachedFirstId, [])
  else
    match env.voices with
    | .fail => (none, [.voicesList])
    | .ok firstId => (some firstId, [.voicesList])

/-- Lines 119-185: the `POST /tts` handler.  With no API key configured
it answers 500.  Then
`const text = (req.body?.text || '').toString().trim()`; empty text
answers `400 { error: 'Missing text' }` before anything else.  The voice
id falls back from the body to the env default and then to the first
upstream voice (failures swallowed); still empty answers 400.  Otherwise
the synthesis stream is fetched and either piped (200-family pass
through as the upstream status with an audio body) or reported as a JSON
error with the upstream status (502 on a rejected fetch, which the outer
catch answers as 500). -/
def postTts (cfg : TtsConfig) (env : TtsEnv) (body : TtsReqBody) : TtsResult :=
  if cfg.elevenApiKey = "" then { status := 500, jsonError := true, calls := [] }
  else
    let text := jsTrim (body.text.getD "")
    if text = "" then { status := 400, jsonError := true, calls := [] }
    else
      let voiceId0 :=
        match body.voiceId with
        | some v => if v = "" then cfg.elevenVoiceId else v
        | none => cfg.elevenVoiceId
      let (voiceId, calls) :=
        if voiceId0 = "" then
          match getElevenVoices env with
          | (some firstId, cs) => (firstId, cs)
          | (none, cs) => ("", cs)
        else (voiceId0, [])
      if voiceId = "" then { status := 400, jsonError := true, calls := calls }
      else
        let calls := calls ++ [.synth voiceId text]
        match env.synth with
        | .netError => { status := 500, jsonError := true, calls := calls }
        | .resp status hasBody =>
            if 200 ≤ status ∧ status ≤ 299 ∧ hasBody then
              { status := status, jsonError := false, calls := calls }
            else
              { status := if status = 0 then 502 else status, jsonError := true, calls := calls }

end StepAI.Server

namespace StepAI

/-- Sample Variant A state for a live call: transport and channel up,
one enabled microphone track, recording in progress. -/
def sampleLive : VariantA.AppState :=
  { VariantA.initState with
      pcPresent := true
      dc := some "open"
      micStream := some [{ enabled := true, stopped := false }]
      isConnected := true
      isRecording := true
      status := "Listening..." }

/-- Sample Variant A state captured mid-playback: one TTS item still
queued and another one playing on the sink. -/
def midPlaybackState : VariantA.AppState :=
  { VariantA.initState with
      pcPresent := true
      dc := some "open"
      isConnected := true
      ttsQueue := [{ text := "hello", voiceId := "" }]
      ttsPlaying := true
      audioPaused := false }

/-- Environment for one concrete run: microphone granted on the first
attempt, credential broker answers HTTP 401. -/
def env401 : ConnectEnv :=
  { micEnhanced := some [{ enabled := true, stopped := false }]
    micBasic := none
    session := .httpError 401 "Unauthorized"
    sdp := .ok "answer" }

/-- Environment for one concrete run: both microphone attempts rejected. -/
def envMicDenied : ConnectEnv :=
  { micEnhanced := none
    micBasic := none
    session := .netError
    sdp := .netError }

/-- Environment for one concrete run: microphone and credential granted,
SDP exchange answers HTTP 500. -/
def envSdp500 : ConnectEnv :=
  { micEnhanced := some [{ enabled := true, stopped := false }]
    micBasic := none
    session := .ok "sek" "gpt-realtime"
    sdp := .httpError 500 "upstream error" }

/-- What the claimed SDP-failure abort must leave behind, for a given
set of acquired tracks: how many times each variant ran `cleanup`, that
the stream handle is nulled, that every acquired track ends stopped
(and still disabled), and that both variants end `Idle`. -/
def SdpAbortOutcome (tracks : List Track) (status : Nat) (errText model secret : String) : Prop :=
  let env : ConnectEnv :=
    { micEnhanced := some tracks, micBasic := none,
      session := .ok secret model, sdp := .httpError status errText }
  let stA := VariantA.connect env VariantA.initState
  let stB := VariantB.micButtonConnect env VariantB.initState
  stA.cleanupCount = 1
  ∧ stA.micStream = none
  ∧ stA.stoppedTrackLog = tracks.map (fun t => { t with enabled := false, stopped := true })
  ∧ VariantA.isIdle stA = true
  ∧ stB.cleanupCount = 3
  ∧ stB.micStream = none
  ∧ stB.stoppedTrackLog = tracks.map (fun t => { t with enabled := false, stopped := true })
  ∧ VariantB.isIdle stB = true

end StepAI

namespace StepAI

lemma listPrefixOf_append (p l b : List Char) (h : listPrefixOf p l = true) :
    listPrefixOf p (l ++ b) = true := by
  induction p generalizing l with
  | nil => simp [listPrefixOf]
  | cons a p ih =>
    cases l with
    | nil => simp [listPrefixOf] at h
    | cons c l =>
      simp only [listPrefixOf, Bool.and_eq_true] at h
      simp only [List.cons_append, listPrefixOf, Bool.and_eq_true]
      exact ⟨h.1, ih l h.2⟩

lemma listInfixOf_nil_left (l : List Char) : listInfixOf [] l = true := by
  cases l <;> simp [listInfixOf, listPrefixOf]

lemma listInfixOf_append_right (p l b : List Char) (h : listInfixOf p l = true) :
    listInfixOf p (l ++ b) = true := by
  induction l with
  | nil =>
    simp only [listInfixOf, List.isEmpty_iff] at h
    subst h
    simpa using listInfixOf_nil_left b
  | cons c l ih =>
    simp only [listInfixOf, Bool.or_eq_true] at h
    simp only [List.cons_append, listInfixOf, Bool.or_eq_true]
    rcases h with h | h
    · exact Or.inl (listPrefixOf_append p (c :: l) b h)
    · exact Or.inr (ih h)

lemma strContains_append_left (a b pat : String) (h : strContains a pat = true) :
    strContains (a ++ b) pat = true := by
  unfold strContains at h ⊢
  rw [String.data_append]
  exact listInfixOf_append_right pat.data a.data b.data h

end StepAI

namespace StepAI.VariantA

/-- Normal form of the Variant A teardown: one `cleanup` bumps the
counter, nulls every handle, stops and logs the tracks it held, clears
the connection flags and restores the resting status and placeholder
transcript — touching nothing else (in particular neither `ttsQueue`
nor `ttsPlaying` nor the audio element). -/
lemma cleanupA_eq (st : AppState) :
    cleanup st =
      { st with
          cleanupCount := st.cleanupCount + 1
          dc := none
          pcPresent := false
          micStream := none
          isConnected := false
          isRecording := false
          stoppedTrackLog := st.stoppedTrackLog
            ++ ((st.micStream.getD []).map fun t => { t with stopped := true })
          status := "Ready to connect"
          statusTrace := st.statusTrace ++ ["Ready to connect"]
          transcript := "Tap the microphone to start speaking..." } := by
  cases st with
  | mk pcPresent micStream dc isConnected isRecording aiBuffer promptApplied ttsQueue
      ttsPlaying audioPaused audioCurrentTime status transcript voiceIdSel instructionsSel
      remoteDescSet statusTrace sessionReqs stoppedTrackLog ttsFetchLog cleanupCount =>
    cases micStream <;>
      simp [cleanup, stopTracks, updateUI, updateUIIdle, setMicEnabled, setStatus, setTranscript]

end StepAI.VariantA

namespace StepAI.VariantB

/-- Normal form of the Variant B teardown, identical in shape to
Variant A's. -/
lemma cleanupB_eq (st : BState) :
    cleanup st =
      { st with
          cleanupCount := st.cleanupCount + 1
          dc := none
          pcPresent := false
          micStream := none
          isConnected := false
          isRecording := false
          stoppedTrackLog := st.stoppedTrackLog
            ++ ((st.micStream.getD []).map fun t => { t with stopped := true })
          status := "Ready to connect"
          statusTrace := st.statusTrace ++ ["Ready to connect"]
          transcript := "Tap the microphone to start speaking..." } := by
  cases st with
  | mk pcPresent micStream dc isConnected isRecording aiBuffer promptApplied audioMuted
      playNudges status transcript voiceSel instructionsSel remoteDescSet statusTrace
      sessionReqs stoppedTrackLog cleanupCount =>
    cases micStream <;>
      simp [cleanup, stopTracks, updateUI, updateUIIdle, setMicEnabled, setStatus, setTranscript]

end StepAI.VariantB

namespace StepAI.TtsWorker

lemma startedItems_append (tr tr' : List Ev) :
    startedItems (tr ++ tr') = startedItems tr ++ startedItems tr' :=
  List.filterMap_append tr tr' _

lemma doneItems_append (tr tr' : List Ev) :
    doneItems (tr ++ tr') = doneItems tr ++ doneItems tr' :=
  List.filterMap_append tr tr' _

lemma endedItems_append (tr tr' : List Ev) :
    endedItems (tr ++ tr') = endedItems tr ++ endedItems tr' :=
  List.filterMap_append tr tr' _

lemma activeAfter_append (n : Int) (tr tr' : List Ev) :
    activeAfter n (tr ++ tr') = activeAfter (activeAfter n tr) tr' := by
  induction tr generalizing n with
  | nil => simp [activeAfter]
  | cons e tr ih => simp [activeAfter, ih]

lemma boundedFrom_append (n : Int) (tr tr' : List Ev) :
    boundedFrom n (tr ++ tr')
      = (boundedFrom n tr && boundedFrom (activeAfter n tr) tr') := by
  induction tr generalizing n with
  | nil => simp [boundedFrom, activeAfter]
  | cons e tr ih => simp [boundedFrom, activeAfter, ih, Bool.and_assoc]

lemma startedItems_snoc_fetchRequested (tr : List Ev) (i : TtsItem) :
    startedItems (tr ++ [.fetchRequested i]) = startedItems tr ++ [i] := by
  rw [startedItems_append]; rfl

lemma startedItems_snoc_playStarted (tr : List Ev) (i : TtsItem) :
    startedItems (tr ++ [.playStarted i]) = startedItems tr := by
  rw [startedItems_append]; simp [startedItems]

lemma startedItems_snoc_playEnded (tr : List Ev) (i : TtsItem) :
    startedItems (tr ++ [.playEnded i]) = startedItems tr := by
  rw [startedItems_append]; simp [startedItems]

lemma startedItems_snoc_fetchFailed (tr : List Ev) (i : TtsItem) :
    startedItems (tr ++ [.fetchFailed i]) = startedItems tr := by
  rw [startedItems_append]; simp [startedItems]

lemma doneItems_snoc_fetchRequested (tr : List Ev) (i : TtsItem) :
    doneItems (tr ++ [.fetchRequested i]) = doneItems tr := by
  rw [doneItems_append]; simp [doneItems]

lemma doneItems_snoc_playStarted (tr : List Ev) (i : TtsItem) :
    doneItems (tr ++ [.playStarted i]) = doneItems tr := by
  rw [doneItems_append]; simp [doneItems]

lemma doneItems_snoc_playEnded (tr : List Ev) (i : TtsItem) :
    doneItems (tr ++ [.playEnded i]) = doneItems tr ++ [i] := by
  rw [doneItems_append]; rfl

lemma doneItems_snoc_fetchFailed (tr : List Ev) (i : TtsItem) :
    doneItems (tr ++ [.fetchFailed i]) = doneItems tr ++ [i] := by
  rw [doneItems_append]; rfl

lemma activeAfter_snoc (n : Int) (tr : List Ev) (e : Ev) :
    activeAfter n (tr ++ [e]) = activeAfter n tr + delta e := by
  rw [activeAfter_append]; rfl

lemma boundedFrom_snoc (n : Int) (tr : List Ev) (e : Ev) :
    boundedFrom n (tr ++ [e])
      = (boundedFrom n tr
          && (decide (0 ≤ activeAfter n tr + delta e)
              && decide (activeAfter n tr + delta e ≤ 1))) := by
  rw [boundedFrom_append]; simp [boundedFrom]

lemma endedItems_sublist_doneItems (tr : List Ev) :
    List.Sublist (endedItems tr) (doneItems tr) := by
  induction tr with
  | nil => simp [endedItems, doneItems]
  | cons e tr ih =>
    cases e with
    | fetchRequested i => simpa [endedItems, doneItems] using ih
    | playStarted i => simpa [endedItems, doneItems] using ih
    | playEnded i => simpa [endedItems, doneItems] using List.Sublist.cons₂ i ih
    | fetchFailed i => simpa [endedItems, doneItems] using List.Sublist.cons i ih

lemma inv_init : Inv init :=
  ⟨rfl, rfl, rfl, rfl, rfl⟩

lemma kick_inv (st : WState) (hpl : st.ttsPlaying = false) (hph : st.phase = .idle)
    (h1 : st.enqLog = startedItems st.trace ++ st.queue)
    (h2 : startedItems st.trace = doneItems st.trace)
    (h4 : boundedFrom 0 st.trace = true)
    (h5 : activeAfter 0 st.trace = 0) : Inv (kick st) := by
  cases hq : st.queue with
  | nil =>
    simp only [kick, hpl, Bool.false_eq_true, if_false, hq]
    refine ⟨h1, ?_, ?_, h4, ?_⟩
    · rw [hph]; simpa [phaseItem] using h2
    · rw [hph, hpl]; rfl
    · rw [hph, h5]
  | cons qh qt =>
    simp only [kick, hpl, Bool.false_eq_true, if_false, hq]
    refine ⟨?_, ?_, rfl, ?_, ?_⟩
    · rw [startedItems_snoc_fetchRequested, h1, hq]
      simp
    · rw [startedItems_snoc_fetchRequested, doneItems_snoc_fetchRequested, h2]
      rfl
    · rw [boundedFrom_snoc, h4, h5]
      rfl
    · rw [activeAfter_snoc, h5]
      rfl

lemma inv_step (st : WState) (a : Act) (h : Inv st) : Inv (step st a) := by
  obtain ⟨h1, h2, h3, h4, h5⟩ := h
  cases a with
  | enqueue item =>
    simp only [step]
    cases hp : st.ttsPlaying with
    | true =>
      simp only [kick, hp, if_true]
      refine ⟨?_, h2, hp ▸ h3, h4, h5⟩
      rw [h1]
      simp
    | false =>
      have hidle : st.phase = .idle := by
        cases hph : st.phase
        · rfl
        · rw [hph, hp] at h3; simp [phaseItem] at h3
        · rw [hph, hp] at h3; simp [phaseItem] at h3
      refine kick_inv _ rfl hidle ?_ ?_ h4 ?_
      · rw [h1]
        simp
      · rw [hidle] at h2
        simpa [phaseItem] using h2
      · rw [hidle] at h5
        exact h5
  | fetchResolved ok =>
    simp only [step]
    cases hph : st.phase with
    | idle => exact ⟨h1, h2, h3, h4, h5⟩
    | playing i => exact ⟨h1, h2, h3, h4, h5⟩
    | fetching i =>
      rw [hph] at h2 h3 h5
      simp only [phaseItem, Option.toList_some] at h2
      cases hok : ok with
      | true =>
        simp only [if_true]
        refine ⟨?_, ?_, ?_, ?_, ?_⟩
        · rw [startedItems_snoc_playStarted, h1]
        · rw [startedItems_snoc_playStarted, doneItems_snoc_playStarted, h2]
          rfl
        · simpa [phaseItem] using h3
        · rw [boundedFrom_snoc, h4, h5]
          rfl
        · rw [activeAfter_snoc, h5]
          rfl
      | false =>
        simp only [Bool.false_eq_true, if_false, finallyAdvance]
        refine kick_inv _ rfl rfl ?_ ?_ ?_ ?_
        · rw [startedItems_snoc_fetchFailed, h1]
        · rw [startedItems_snoc_fetchFailed, doneItems_snoc_fetchFailed, h2]
        · rw [boundedFrom_snoc, h4, h5]
          rfl
        · rw [activeAfter_snoc, h5]
          rfl
  | audioEnded =>
    simp only [step]
    cases hph : st.phase with
    | idle => exact ⟨h1, h2, h3, h4, h5⟩
    | fetching i => exact ⟨h1, h2, h3, h4, h5⟩
    | playing i =>
      rw [hph] at h2 h3 h5
      simp only [phaseItem, Option.toList_some] at h2
      simp only [finallyAdvance]
      refine kick_inv _ rfl rfl ?_ ?_ ?_ ?_
      · rw [startedItems_snoc_playEnded, h1]
      · rw [startedItems_snoc_playEnded, doneItems_snoc_playEnded, h2]
      · rw [boundedFrom_snoc, h4, h5]
        rfl
      · rw [activeAfter_snoc, h5]
        rfl

lemma inv_run (as : List Act) : Inv (run as) := by
  suffices h : ∀ st, Inv st → Inv (List.foldl step st as) from h init inv_init
  induction as with
  | nil => exact fun st h => h
  | cons a as ih => exact fun st h => ih (step st a) (inv_step st a h)

end StepAI.TtsWorker

namespace StepAI

/-- Claim C6: for every sequence of inbound realtime events processed by
Variant A's dispatch, the AI Reply Buffer is empty immediately after
every flush-triggering event (`response.output_text.done`,
`response.completed`, `response.audio_transcript.done`,
`response.done`), and every `response.created` resets it to empty even
when the prior turn was never flushed, so the buffer is empty
immediately before any text of the new turn arrives. -/
theorem ai_buffer_reset_invariant :
    ∀ (st s0 : VariantA.AppState) (msgs : List RtMsg),
      (VariantA.handleEventMessage .responseCreated st).aiBuffer = ""
      ∧ (VariantA.handleEventMessage .outputTextDone st).aiBuffer = ""
      ∧ (VariantA.handleEventMessage .responseCompleted st).aiBuffer = ""
      ∧ (VariantA.handleEventMessage .audioTranscriptDone st).aiBuffer = ""
      ∧ (VariantA.handleEventMessage .responseDone st).aiBuffer = ""
      ∧ (VariantA.runEvents (msgs ++ [.responseCreated]) s0).aiBuffer = "" := by
  intro st s0 msgs
  refine ⟨rfl, rfl, rfl, rfl, rfl, ?_⟩
  rw [VariantA.runEvents, List.foldl_append]
  rfl

/-- Claim C9: in Variant B, processing an `input_audio_buffer.committed`
event sends exactly one `response.create` control message requesting
the audio and text modalities when the event channel is open, and sends
nothing when it is absent or not open; the state itself is untouched. -/
theorem committed_sends_one_turn_create :
    ∀ st : VariantB.BState,
      (VariantB.handleEventMessage .inputAudioCommitted st).2
        = (if st.dc = some "open"
            then [VariantB.OutMsg.responseCreate "auto" ["audio", "text"]] else [])
      ∧ (VariantB.handleEventMessage .inputAudioCommitted st).1 = st := by
  intro st
  constructor
  · simp only [VariantB.handleEventMessage]
    split <;> rfl
  · simp only [VariantB.handleEventMessage]
    split <;> rfl

/-- Claim C2: evidence that Variant A's teardown does not stop the TTS
pipeline.  From a state captured mid-playback (one item queued, one
playing, the sink not paused), `cleanup` leaves the queue, the playing
flag and the sink exactly as they were — the dead routine `stopTts`
(never called by any code path) is what would have cleared them. -/
theorem cleanup_leaves_tts_pipeline_running :
    (VariantA.cleanup midPlaybackState).ttsQueue = [{ text := "hello", voiceId := "" }]
    ∧ (VariantA.cleanup midPlaybackState).ttsPlaying = true
    ∧ (VariantA.cleanup midPlaybackState).audioPaused = false
    ∧ (VariantA.stopTts midPlaybackState).ttsQueue = []
    ∧ (VariantA.stopTts midPlaybackState).ttsPlaying = false
    ∧ (VariantA.stopTts midPlaybackState).audioPaused = true
    ∧ (∀ st : VariantA.AppState,
        (VariantA.cleanup st).ttsQueue = st.ttsQueue
        ∧ (VariantA.cleanup st).ttsPlaying = st.ttsPlaying
        ∧ (VariantA.cleanup st).audioPaused = st.audioPaused) := by
  refine ⟨by decide, by decide, by decide, by decide, by decide, by decide, ?_⟩
  intro st
  rw [VariantA.cleanupA_eq]
  exact ⟨rfl, rfl, rfl⟩

/-- Claim C1 (counterexample): in Variant A a transient `disconnected`
transport status does by itself trigger the teardown routine — from a
live call state, the handler runs `cleanup`, closing the transport and
nulling the stream. -/
theorem variantA_disconnected_triggers_teardown :
    (VariantA.onConnectionStateChange "disconnected" sampleLive).cleanupCount
        = sampleLive.cleanupCount + 1
    ∧ (VariantA.onConnectionStateChange "disconnected" sampleLive).pcPresent = false
    ∧ (VariantA.onConnectionStateChange "disconnected" sampleLive).micStream = none := by
  decide

/-- Claim C1 (amended): `failed` and `closed` always trigger teardown in
both variants; a transient `disconnected` is status-only in Variant B
(the handler changes nothing but the status line), but in Variant A it
triggers teardown exactly like `failed` and `closed`. -/
theorem connection_state_teardown_policy :
    ∀ (s : String) (sa : VariantA.AppState) (sb : VariantB.BState),
      (VariantA.onConnectionStateChange s sa).cleanupCount
          = sa.cleanupCount + (if s = "failed" || s = "closed" || s = "disconnected" then 1 else 0)
      ∧ (VariantB.onConnectionStateChange s sb).cleanupCount
          = sb.cleanupCount + (if s = "failed" || s = "closed" then 1 else 0)
      ∧ VariantB.onConnectionStateChange "disconnected" sb
          = { sb with
                status := "Connection temporarily lost, attempting to reconnect..."
                statusTrace := (sb.statusTrace ++ ["disconnected"])
                  ++ ["Connection temporarily lost, attempting to reconnect..."] } := by
  intro s sa sb
  refine ⟨?_, ?_, rfl⟩
  · unfold VariantA.onConnectionStateChange
    by_cases hc : (s = "failed" || s = "closed" || s = "disconnected") = true
    · simp [hc, VariantA.cleanupA_eq, VariantA.setStatus]
    · simp [hc, VariantA.setStatus]
  · unfold VariantB.onConnectionStateChange
    by_cases hc : (s = "failed" || s = "closed") = true
    · simp [hc, VariantB.cleanupB_eq, VariantB.setStatus]
    · by_cases hd : s = "disconnected"
      · simp [hc, hd, VariantB.setStatus]
      · simp [hc, hd, VariantB.setStatus]

end StepAI

namespace StepAI

/-- Claim C8: teardown is idempotent and total in both variants.  A
second `cleanup` changes nothing the program can observe (only the
instrumentation traces grow), `cleanup` is a total function — safe with
every handle null, as in `initState` — and after any `cleanup` the
conversation state is `Idle`, the status is the resting message and the
default placeholder transcript is restored with every handle null. -/
theorem cleanup_idempotent_total :
    ∀ (sa : VariantA.AppState) (sb : VariantB.BState),
      VariantA.scrubGhost (VariantA.cleanup (VariantA.cleanup sa))
          = VariantA.scrubGhost (VariantA.cleanup sa)
      ∧ VariantA.isIdle (VariantA.cleanup sa) = true
      ∧ (VariantA.cleanup sa).status = "Ready to connect"
      ∧ (VariantA.cleanup sa).transcript = VariantA.placeholderEN
      ∧ (VariantA.cleanup sa).pcPresent = false
      ∧ (VariantA.cleanup sa).dc = none
      ∧ (VariantA.cleanup sa).micStream = none
      ∧ VariantB.scrubGhost (VariantB.cleanup (VariantB.cleanup sb))
          = VariantB.scrubGhost (VariantB.cleanup sb)
      ∧ VariantB.isIdle (VariantB.cleanup sb) = true
      ∧ (VariantB.cleanup sb).status = "Ready to connect"
      ∧ (VariantB.cleanup sb).transcript = VariantA.placeholderEN
      ∧ (VariantB.cleanup sb).micStream = none := by
  intro sa sb
  refine ⟨?_, ?_, ?_, ?_, ?_, ?_, ?_, ?_, ?_, ?_, ?_, ?_⟩ <;>
    simp [VariantA.cleanupA_eq, VariantB.cleanupB_eq, VariantA.scrubGhost, VariantB.scrubGhost,
      VariantA.isIdle, VariantB.isIdle, VariantA.placeholderEN]

/-- Claim C10: a `POST /tts` whose body has a missing, empty or
whitespace-only `text` field is answered `400` with a JSON error body
by a configured relay, and no upstream request — in particular no
synthesis request — is ever issued while handling it. -/
theorem tts_empty_text_400 :
    ∀ (cfg : Server.TtsConfig) (env : Server.TtsEnv) (body : Server.TtsReqBody),
      cfg.elevenApiKey ≠ "" →
      jsTrim (body.text.getD "") = "" →
      Server.postTts cfg env body = { status := 400, jsonError := true, calls := [] } := by
  intro cfg env body hk ht
  simp [Server.postTts, hk, ht]

/-- Claim C10 (witness): a configured relay receiving a whitespace-only
`text` answers 400 without contacting upstream. -/
theorem tts_empty_text_400_witness :
    ("k" : String) ≠ ""
    ∧ jsTrim ((some "   " : Option String).getD "") = ""
    ∧ Server.postTts { elevenApiKey := "k", elevenVoiceId := "" }
        { cacheFresh := false, cachedFirstId := "", voices := .fail, synth := .netError }
        { text := some "   ", voiceId := none }
        = { status := 400, jsonError := true, calls := [] } :=
  ⟨by decide, by decide,
    tts_empty_text_400
      { elevenApiKey := "k", elevenVoiceId := "" }
      { cacheFresh := false, cachedFirstId := "", voices := .fail, synth := .netError }
      { text := some "   ", voiceId := none }
      (by decide) (by decide)⟩

end StepAI

namespace StepAI

/-- Claim C3 (counterexample): when the credential broker answers 401,
the status text at the end of the connect sequence does not reflect the
401 status code — the teardown routine has already overwritten it with
the resting message. -/
theorem session401_final_status_not_401 :
    strContains (VariantA.connect env401 VariantA.initState).status "401" = false
    ∧ (VariantA.connect env401 VariantA.initState).status = "Ready to connect" := by
  decide

/-- Claim C3 (amended): when the credential broker answers HTTP 401 the
Variant A connect sequence aborts through exactly one teardown and ends
`Idle`; the status text shown while handling the failure is
`/session 401: <detail>` and does reflect the 401 status code, but the
teardown then replaces the final status with `Ready to connect`. -/
theorem session401_teardown_idle :
    ∀ (tracks : List Track) (errText instr voiceSel : String) (sdp : SdpFetchRes),
      let env : ConnectEnv := { micEnhanced := some tracks, micBasic := none,
                                session := .httpError 401 errText, sdp := sdp }
      let st := VariantA.connect env
        { VariantA.initState with instructionsSel := instr, voiceIdSel := voiceSel }
      VariantA.isIdle st = true
      ∧ st.cleanupCount = 1
      ∧ st.statusTrace = ["Connecting...", "fetching session…",
          "/session " ++ toString (401 : Nat) ++ ": " ++ sliceOrError errText,
          "Ready to connect"]
      ∧ strContains ("/session " ++ toString (401 : Nat) ++ ": " ++ sliceOrError errText)
          "401" = true
      ∧ st.status = "Ready to connect" := by
  intro tracks errText instr voiceSel sdp
  refine ⟨?_, ?_, ?_, ?_, ?_⟩ <;>
    first
    | exact strContains_append_left _ _ _ (by decide)
    | simp [VariantA.connect, VariantA.connectWithMic, VariantA.updateUI, VariantA.setMicEnabled,
        VariantA.setStatus, VariantA.initState, VariantA.cleanupA_eq, VariantA.isIdle]

/-- Claim C4 (counterexample): when both microphone attempts fail, the
status text the connect sequence ends with is `Connection failed` — the
`error` UI transition has overwritten the permission message, so the
final status contains nothing permission-related. -/
theorem mic_denied_final_status_not_permission :
    (VariantA.connect envMicDenied VariantA.initState).status = "Connection failed"
    ∧ strContains (VariantA.connect envMicDenied VariantA.initState).status "permission" = false
    ∧ strContains (VariantA.connect envMicDenied VariantA.initState).status "Microphone" = false := by
  decide

/-- Claim C4 (amended): when both microphone-acquisition attempts fail,
the connect sequence returns with the conversation state `Idle`, no
credential request was ever issued, and teardown was never invoked; the
permission message `Microphone permission denied` is shown while the
failure is handled but the `error` transition then leaves
`Connection failed` as the final status. -/
theorem mic_denied_idle_no_session_request :
    ∀ (session : SessionFetchRes) (sdp : SdpFetchRes) (instr voiceSel : String),
      let env : ConnectEnv := { micEnhanced := none, micBasic := none,
                                session := session, sdp := sdp }
      let st := VariantA.connect env
        { VariantA.initState with instructionsSel := instr, voiceIdSel := voiceSel }
      VariantA.isIdle st = true
      ∧ st.sessionReqs = []
      ∧ st.statusTrace = ["Connecting...", "Microphone permission denied", "Connection failed"]
      ∧ st.status = "Connection failed"
      ∧ st.cleanupCount = 0 := by
  intro session sdp instr voiceSel
  refine ⟨?_, ?_, ?_, ?_, ?_⟩ <;>
    simp [VariantA.connect, VariantA.updateUI, VariantA.updateUIIdle, VariantA.setMicEnabled,
      VariantA.setStatus, VariantA.initState, VariantA.isIdle]

end StepAI

namespace StepAI

/-- Claim C5 (counterexample): in Variant B an SDP exchange failure does
not invoke teardown exactly once — the failure branch, its enclosing
`catch` and the mic-button rejection handler each run `cleanup`, three
invocations in all. -/
theorem variantB_sdp_failure_triple_teardown :
    (VariantB.micButtonConnect envSdp500 VariantB.initState).cleanupCount = 3 := by
  decide

/-- Claim C5 (amended): when the SDP exchange answers a non-success
status, Variant A invokes teardown exactly once while Variant B's abort
runs it three times (failure branch, enclosing catch, caller's
rejection handler — harmless by idempotence); in both variants every
acquired local media track is stopped by the end of the sequence, the
stream handle is nulled and the conversation state ends `Idle`. -/
theorem sdp_failure_teardown_tracks_stopped :
    ∀ (tracks : List Track) (status : Nat) (errText model secret : String),
      secret ≠ "" → SdpAbortOutcome tracks status errText model secret := by
  intro tracks status errText model secret hs
  unfold SdpAbortOutcome
  refine ⟨?_, ?_, ?_, ?_, ?_, ?_, ?_, ?_⟩ <;>
    simp [VariantA.connect, VariantA.connectWithMic, VariantA.connectWithSession,
      VariantA.updateUI, VariantA.setMicEnabled, VariantA.setStatus, VariantA.initState,
      VariantA.cleanupA_eq, VariantA.isIdle,
      VariantB.micButtonConnect, VariantB.connect, VariantB.connectWithMic,
      VariantB.connectWithSession, VariantB.connectSdpPhase, VariantB.updateUI,
      VariantB.updateUIIdle, VariantB.setMicEnabled, VariantB.setStatus, VariantB.initState,
      VariantB.cleanupB_eq, VariantB.isIdle, hs, List.map_map, Function.comp]
  all_goals
    induction tracks with
    | nil => rfl
    | cons t ts ih => simp [ih, List.replicate_succ]

/-- Claim C5 (witness): a concrete SDP-500 run with one granted track
and a non-empty credential. -/
theorem sdp_failure_teardown_tracks_stopped_witness :
    ("sek" : String) ≠ ""
    ∧ SdpAbortOutcome [{ enabled := true, stopped := false }] 500 "upstream error"
        "gpt-realtime" "sek" :=
  ⟨by decide,
    sdp_failure_teardown_tracks_stopped [{ enabled := true, stopped := false }] 500
      "upstream error" "gpt-realtime" "sek" (by decide)⟩

/-- Claim C7: in Variant A's playback pipeline, over every interleaving
of enqueues and fetch/playback settlements: items complete in exactly
their submission order (the completion sequence is an order-preserving
sublist of the submission log, and the fetch sequence is a prefix of
it); at most one item is ever playing at any point of the trace; a
failed fetch makes the worker advance directly to the next queued item
instead of stalling; and the canonical `[a, b, c]` schedule completes
exactly as `a, b, c`. -/
theorem tts_queue_serialized_and_ordered :
    ∀ (as : List TtsWorker.Act) (a b c i qh : TtsItem) (qt : List TtsItem)
      (tr : List TtsWorker.Ev) (log : List TtsItem) (pl : Bool),
      List.Sublist (TtsWorker.endedItems (TtsWorker.run as).trace) (TtsWorker.run as).enqLog
      ∧ List.IsPrefix (TtsWorker.startedItems (TtsWorker.run as).trace) (TtsWorker.run as).enqLog
      ∧ TtsWorker.boundedFrom 0 (TtsWorker.run as).trace = true
      ∧ TtsWorker.step
            { queue := qh :: qt, ttsPlaying := pl, phase := .fetching i,
              trace := tr, enqLog := log } (.fetchResolved false)
          = { queue := qt, ttsPlaying := true, phase := .fetching qh,
              trace := (tr ++ [.fetchFailed i]) ++ [.fetchRequested qh], enqLog := log }
      ∧ TtsWorker.endedItems (TtsWorker.run
            [.enqueue a, .enqueue b, .enqueue c, .fetchResolved true, .audioEnded,
             .fetchResolved true, .audioEnded, .fetchResolved true, .audioEnded]).trace
          = [a, b, c] := by
  intro as a b c i qh qt tr log pl
  obtain ⟨h1, h2, _h3, h4, _h5⟩ := TtsWorker.inv_run as
  refine ⟨?_, ?_, h4, ?_, ?_⟩
  · have hd : List.Sublist (TtsWorker.doneItems (TtsWorker.run as).trace)
        (TtsWorker.startedItems (TtsWorker.run as).trace) := by
      rw [h2]; exact List.sublist_append_left _ _
    have hs : List.Sublist (TtsWorker.startedItems (TtsWorker.run as).trace)
        (TtsWorker.run as).enqLog := by
      rw [h1]; exact List.sublist_append_left _ _
    exact ((TtsWorker.endedItems_sublist_doneItems _).trans hd).trans hs
  · exact ⟨(TtsWorker.run as).queue, h1.symm⟩
  · rfl
  · rfl

end StepAI
